import Mathlib

/-!
Verification of the PDF-download pipeline in `src/main.py`
(`poolessentials-com-documentation`).

The Python program is shallowly embedded:

* JSON values (`json.loads` results) become the inductive type `PyJson`.
  Numbers are modelled as `Int` (the status codes and identifiers the
  program manipulates are integers and strings; no claim depends on
  floating-point numerals).
* Python exceptions that the program can raise or catch become the
  enumeration `PyErr`; fallible code returns `Except PyErr α`.
* The outside world (filesystem and the Selenium driver) is an explicit
  parameter `Env` of oracles, and side effects are recorded as an `Event`
  trace, so that `main` becomes a pure function
  `(String → Option PyJson) → Env → List Event × Option PyErr`
  returning the ordered event trace together with the uncaught exception
  that escaped `main`, if any.  `json.loads` is passed in as the pure
  oracle `parse : String → Option PyJson` (`none` models
  `json.JSONDecodeError`).
-/

namespace PoolPdf

/-- A parsed JSON value, the result of a successful `json.loads`.
`obj` keeps the key/value pairs in order; keys are unique in values
produced by `json.loads`, and lookups below take the first match. -/
inductive PyJson where
  | null : PyJson
  | bool : Bool → PyJson
  | num : Int → PyJson
  | str : String → PyJson
  | arr : List PyJson → PyJson
  | obj : List (String × PyJson) → PyJson

/-- The Python exceptions relevant to this program. -/
inductive PyErr where
  /-- `AttributeError`, e.g. calling `.get` on a non-dict. -/
  | attributeError : PyErr
  /-- `IndexError`, e.g. `row[0]` on an empty list. -/
  | indexError : PyErr
  /-- `KeyError` from a dict subscript. -/
  | keyError : PyErr
  /-- `TypeError`, e.g. iterating a non-iterable. -/
  | typeError : PyErr
  /-- `FileExistsError` from `os.mkdir` / `os.makedirs`. -/
  | fileExistsError : PyErr
  /-- A `WebDriverException` raised by a `driver.get` navigation. -/
  | navigationError : PyErr
deriving DecidableEq

/-- Observable side effects of the program, in order of occurrence. -/
inductive Event where
  /-- A line written to the console by `print`. -/
  | printed : String → Event
  /-- `os.mkdir` invoked by `create_directory_at_path`. -/
  | mkdirEv : String → Event
  /-- `os.makedirs(..., exist_ok=True)` invoked inside `setup_browser`. -/
  | makedirsEv : String → Event
  /-- The Chrome session launched by `setup_browser`. -/
  | launchedBrowser : String → Event
  /-- `read_a_file` opened and read the given path. -/
  | readFileEv : String → Event
  /-- `driver.get` navigated (or attempted to navigate) to the URL. -/
  | navigateEv : String → Event
  /-- `driver.quit()` released the browser session. -/
  | quitEv : Event
deriving DecidableEq

/-- A raw Chrome performance-log record, as consumed by
`get_http_status_code_from_browser`.  The Python code evaluates
`json.loads(log_entry["message"])`; `none` models an entry for which that
evaluation raises (missing `"message"` key, or unparseable JSON), which the
`except Exception` swallows.  `some j` is the parsed message JSON. -/
abbrev RawLog := Option PyJson

/-- The filesystem and browser oracles `main` interacts with, a snapshot
of the pre-run world.  `navigate u = none` models a `driver.get(url=u)`
that raises; `navigate u = some logs` models a successful navigation after
which `driver.get_log("performance")` returns `logs`. -/
structure Env where
  /-- `os.path.isfile`. -/
  fileExists : String → Bool
  /-- `os.path.exists` — true for any existing path, file or directory. -/
  pathExists : String → Bool
  /-- whether the existing path is a directory. -/
  isDir : String → Bool
  /-- `read_a_file`: the contents at a path (only queried on paths
  validated to exist). -/
  readFile : String → String
  /-- the Selenium driver: per-URL navigation outcome and captured logs. -/
  navigate : String → Option (List RawLog)

/-- Python `s.endswith(suffix)`: the characters of `suffix` are a suffix
of the characters of `s`.  (Stated over `List Char` so that it is
structurally recursive and kernel-reducible, unlike `String.endsWith`.) -/
def str_ends_with (s suffix : String) : Bool :=
  suffix.data.isSuffixOf s.data

/-- Python `s.startswith(prefixStr)`, over `List Char` as above. -/
def str_starts_with (s prefixStr : String) : Bool :=
  prefixStr.data.isPrefixOf s.data

/-- Python `dict.get(key, default)` on the ordered pair list of an
`obj`. -/
def dict_get (kvs : List (String × PyJson)) (key : String)
    (dflt : PyJson) : PyJson :=
  match kvs.find? (fun p => p.1 == key) with
  | some p => p.2
  | none => dflt

/-- Python dict subscript `d[key]` semantics folded into `Option`:
`none` when the value is not a dict or the key is absent (the program
only subscripts inside `try` blocks that swallow the exception). -/
def py_subscript (v : PyJson) (key : String) : Option PyJson :=
  match v with
  | .obj kvs =>
    match kvs.find? (fun p => p.1 == key) with
    | some p => some p.2
    | none => none
  | _ => none

/-- Python iteration (`for row in records`): lists yield their elements,
dicts yield their keys (as strings), strings yield their one-character
substrings; `null`, booleans and numbers are not iterable (`TypeError`,
modelled as `none`). -/
def py_iter : PyJson → Option (List PyJson)
  | .arr xs => some xs
  | .obj kvs => some (kvs.map (fun p => PyJson.str p.1))
  | .str s => some (s.data.map (fun c => PyJson.str (String.mk [c])))
  | _ => none

/-- The list comprehension in `extract_pdf_urls`:
`[row[0] for row in records if isinstance(row, list) and
isinstance(row[0], str) and row[0].endswith("_PDF")]`.
Rows that are empty Python lists raise `IndexError` at `row[0]`
(short-circuit `and` evaluates `row[0]` after `isinstance(row, list)`
succeeds), which aborts the whole comprehension. -/
def pdf_ids_of_rows : List PyJson → Except PyErr (List String)
  | [] => .ok []
  | row :: rest =>
    match row with
    | .arr [] => .error .indexError
    | .arr (first :: _) =>
      match first with
      | .str s =>
        if str_ends_with s "_PDF" then
          match pdf_ids_of_rows rest with
          | .ok ids => .ok (s :: ids)
          | .error e => .error e
        else
          pdf_ids_of_rows rest
      | _ => pdf_ids_of_rows rest
    | _ => pdf_ids_of_rows rest

/-- `extract_pdf_urls(json_string, base_url)` from `src/main.py`, acting
on the `json.loads` outcome (`none` = `json.JSONDecodeError`).

The `try` block catches exactly `(json.JSONDecodeError, KeyError,
TypeError)` — those paths print a diagnostic (a console line of the form
`Error parsing JSON: ...`, not modelled as an event since the function is
embedded purely) and return `[]`.  `AttributeError` (from
`parsed_json.get` or `.get("Data", [])` on a non-dict) and `IndexError`
(from `row[0]` on an empty-list row) are NOT in the except clause and
propagate to the caller. -/
def extract_pdf_urls (parsed : Option PyJson) (base_url : String) :
    Except PyErr (List String) :=
  match parsed with
  | none => .ok []
  | some pj =>
    match pj with
    | .obj kvs =>
      match dict_get kvs "data" (.obj []) with
      | .obj kvs2 =>
        match py_iter (dict_get kvs2 "Data" (.arr [])) with
        | none => .ok []
        | some rows =>
          match pdf_ids_of_rows rows with
          | .ok ids => .ok (ids.map (fun i => base_url ++ "/" ++ i))
          | .error e => .error e
      | _ => .error .attributeError
    | _ => .error .attributeError

/-- The row sequence `extract_pdf_urls` iterates over, for a given parse
outcome: empty whenever the code takes a catch path before reaching the
comprehension, or errors before iterating. -/
def rows_of (parsed : Option PyJson) : List PyJson :=
  match parsed with
  | some (.obj kvs) =>
    match dict_get kvs "data" (.obj []) with
    | .obj kvs2 => (py_iter (dict_get kvs2 "Data" (.arr []))).getD []
    | _ => []
  | _ => []

/-- The per-row contribution of the comprehension plus the URL-building
`f"{base_url}/{pdf_id}"` step: `some url` exactly when the row is a
nonempty list whose first element is a string ending in `_PDF`. -/
def qualifying_url (base_url : String) : PyJson → Option String
  | .arr (.str s :: _) =>
    if str_ends_with s "_PDF" then some (base_url ++ "/" ++ s) else none
  | _ => none

/-- The identifier a row contributes before URL building: `some id`
exactly when the row is a nonempty list whose first element is a string
ending in `_PDF`. -/
def qualifying_id : PyJson → Option String
  | .arr (.str s :: _) =>
    if str_ends_with s "_PDF" then some s else none
  | _ => none

/-- Python `value == some_string`: string equality when `value` is a
string, `False` for every other type (no exception). -/
def py_eq_str (v : PyJson) (s : String) : Bool :=
  match v with
  | .str t => t == s
  | _ => false

/-- The `try` body of the log loop in `get_http_status_code_from_browser`
for one entry: evaluate
`json.loads(log_entry["message"])["message"]`, require
`message["method"] == "Network.responseReceived"`, extract
`message["params"]["response"]`, require `response["url"] == target_url`,
and return `response["status"]` (whatever JSON value it holds — Python
does not check it is an int).  Any failing subscript raises inside the
`try` and the entry is skipped (`none`); a non-matching method or URL
falls through the `if` with the same effect. -/
def log_entry_status (target_url : String) (entry : RawLog) :
    Option PyJson :=
  match entry with
  | none => none
  | some parsedEntry =>
    match py_subscript parsedEntry "message" with
    | none => none
    | some message =>
      match py_subscript message "method" with
      | none => none
      | some method =>
        if py_eq_str method "Network.responseReceived" then
          match py_subscript message "params" with
          | none => none
          | some params =>
            match py_subscript params "response" with
            | none => none
            | some response =>
              match py_subscript response "url" with
              | none => none
              | some u =>
                if py_eq_str u target_url then
                  py_subscript response "status"
                else none
        else none

/-- The `for log_entry in browser_logs` scan: return at the first entry
whose `try` body produces a value, else fall through to `None`. -/
def scan_logs (logs : List RawLog) (target_url : String) :
    Option PyJson :=
  match logs with
  | [] => none
  | entry :: rest =>
    match log_entry_status target_url entry with
    | some v => some v
    | none => scan_logs rest target_url

/-- `get_http_status_code_from_browser(driver, target_url)`:
`driver.get("about:blank")`, then `driver.get(target_url)` (either may
raise a navigation error, which propagates — there is no `try` around
them), then scan the performance log.  Returns the event trace of the
navigation attempts together with the outcome. -/
def get_http_status_code_from_browser (env : Env) (target_url : String) :
    List Event × Except PyErr (Option PyJson) :=
  match env.navigate "about:blank" with
  | none => ([.navigateEv "about:blank"], .error .navigationError)
  | some _ =>
    match env.navigate target_url with
    | none =>
      ([.navigateEv "about:blank", .navigateEv target_url],
        .error .navigationError)
    | some logs =>
      ([.navigateEv "about:blank", .navigateEv target_url],
        .ok (scan_logs logs target_url))

/-- Python `status_code == 200` where `status_code : int | None`
(and, untyped, possibly any JSON value returned from the log):
true only for the integer 200. -/
def py_eq_int (v : Option PyJson) (n : Int) : Bool :=
  match v with
  | some (.num m) => m == n
  | _ => false

/-- `download_pdf_if_valid(driver, pdf_url)`: fetch the status via
`get_http_status_code_from_browser` and return `status_code == 200`;
a navigation exception propagates. -/
def download_pdf_if_valid (env : Env) (pdf_url : String) :
    List Event × Except PyErr Bool :=
  match get_http_status_code_from_browser env pdf_url with
  | (evs, .error e) => (evs, .error e)
  | (evs, .ok status_code) => (evs, .ok (py_eq_int status_code 200))

/-- The characters after the last `/`, or all of them when no `/`
occurs. -/
def after_last_slash (cs : List Char) : List Char :=
  cs.foldl (fun acc c => if c = '/' then [] else acc ++ [c]) []

/-- `os.path.basename` (POSIX): the text after the last `/`. -/
def os_path_basename (p : String) : String :=
  String.mk (after_last_slash p.data)

/-- `get_file_name_from_url(input_url)` = `os.path.basename(p=input_url)`. -/
def get_file_name_from_url (input_url : String) : String :=
  os_path_basename input_url

/-- `os.path.join(a, b)` (POSIX, two components): an absolute second
component replaces the first, otherwise they are joined with exactly one
`/`. -/
def os_path_join (a b : String) : String :=
  if str_starts_with b "/" then b
  else if a = "" then b
  else if str_ends_with a "/" then a ++ b
  else a ++ "/" ++ b

/-- `check_file_exists(system_path)` = `os.path.isfile(path=system_path)`. -/
def check_file_exists (env : Env) (system_path : String) : Bool :=
  env.fileExists system_path

/-- `check_directory_exists(system_path)` = `os.path.exists(path=system_path)`
— note: true for ANY existing path, not only directories. -/
def check_directory_exists (env : Env) (system_path : String) : Bool :=
  env.pathExists system_path

/-- `setup_browser(download_dir)`: `os.makedirs(name=download_dir,
exist_ok=True)` — which raises `FileExistsError` exactly when the path
already exists but is not a directory (with `exist_ok=True` an existing
directory is fine, and a missing path is created) — then configures and
launches Chrome.  `Env` is a pre-run snapshot, so a path the orchestrator
has just created via `os.mkdir` shows up as `pathExists = false` here and
`makedirs` succeeds on it. -/
def setup_browser (env : Env) (download_dir : String) :
    List Event × Option PyErr :=
  if env.pathExists download_dir && !env.isDir download_dir then
    ([.makedirsEv download_dir], some .fileExistsError)
  else
    ([.makedirsEv download_dir, .launchedBrowser download_dir], none)

/-- The `valid_urls_path` list in `main`. -/
def valid_urls_path : List String := ["page_1.json", "page_2.json"]

/-- The base URL constant passed to `extract_pdf_urls` in `main`. -/
def base_url_const : String :=
  "https://kik-sds.thewercs.com/MyDocuments/DownloadSingleFile?content="

/-- `output_directory` in `main` is
`str(pathlib.Path(__file__).resolve().parent / "PDFs")`; the absolute
prefix is irrelevant to every claim, so the path is modelled by the
constant final component. -/
def output_directory : String := "PDFs"

/-- The validation loop in `main`: the first configured path for which
`check_file_exists` is false, if any. -/
def first_missing (env : Env) : List String → Option String
  | [] => none
  | p :: ps =>
    if check_file_exists env p then first_missing env ps else some p

/-- Python `"".join(s)` where `s` is a `str`: joining the one-character
substrings of a string with the empty separator is the identity. -/
def join_empty (s : String) : String := s

/-- The extraction step of `main`: read `valid_urls_path[0]` and run
`extract_pdf_urls` on `"".join(...)` of its content with the fixed base
URL. -/
def main_pdf_urls (parse : String → Option PyJson) (env : Env) :
    Except PyErr (List String) :=
  extract_pdf_urls
    (parse (join_empty (env.readFile (valid_urls_path.headD ""))))
    base_url_const

/-- The per-URL loop of `main`: print a progress line, derive the local
filename, skip the URL when a file of that name already exists in the
output directory, otherwise attempt `download_pdf_if_valid` (discarding
its boolean result; its exceptions propagate and abort the loop). -/
def process_urls (env : Env) : List String → List Event × Option PyErr
  | [] => ([], none)
  | pdf_url :: rest =>
    let progress : Event := .printed ("Processing URL: " ++ pdf_url)
    let file_name : String := get_file_name_from_url pdf_url
    let full_file_path : String := os_path_join output_directory file_name
    if check_file_exists env full_file_path then
      let r := process_urls env rest
      (progress :: r.1, r.2)
    else
      let dl := download_pdf_if_valid env pdf_url
      match dl.2 with
      | .error e => (progress :: dl.1, some e)
      | .ok _ =>
        let r := process_urls env rest
        (progress :: (dl.1 ++ r.1), r.2)

/-- `main()` from `src/main.py`: validate the two listing files (printing
one error line and returning at the first missing one), create the output
directory when `os.path.exists` is false, launch the browser via
`setup_browser`, read the first listing file, extract the PDF URLs, run
the per-URL loop, and finally `driver.quit()`.  No step after validation
is guarded by `try`, so any exception (directory clash, extraction error,
navigation error) escapes with the trace accumulated so far and
`driver.quit()` is not reached. -/
def main (parse : String → Option PyJson) (env : Env) :
    List Event × Option PyErr :=
  match first_missing env valid_urls_path with
  | some p => ([.printed ("Error: " ++ p ++ " not found.")], none)
  | none =>
    let dirEvs : List Event :=
      if check_directory_exists env output_directory then []
      else [.mkdirEv output_directory]
    let sb := setup_browser env output_directory
    match sb.2 with
    | some e => (dirEvs ++ sb.1, some e)
    | none =>
      let readEvs : List Event :=
        [.readFileEv (valid_urls_path.headD "")]
      match main_pdf_urls parse env with
      | .error e => (dirEvs ++ sb.1 ++ readEvs, some e)
      | .ok pdf_ids =>
        let loop := process_urls env pdf_ids
        match loop.2 with
        | some e => (dirEvs ++ sb.1 ++ readEvs ++ loop.1, some e)
        | none =>
          (dirEvs ++ sb.1 ++ readEvs ++ loop.1 ++ [.quitEv], none)

/-! ## Concrete inputs used by witnesses and counterexamples -/

/-- A well-shaped listing with qualifying and non-qualifying rows. -/
def listing_example : PyJson :=
  .obj [("data", .obj [("Data", .arr
    [.arr [.str "a_PDF"], .arr [.str "b_TXT"], .str "c_PDF",
     .arr [.str "d_PDF", .num 7]])])]

/-- A listing with two qualifying rows. -/
def cex_listing : PyJson :=
  .obj [("data", .obj [("Data", .arr
    [.arr [.str "AA_PDF"], .arr [.str "BB_PDF"]])])]

/-- A `json.loads` oracle mapping the concrete file content to
`cex_listing`. -/
def cex_parse : String → Option PyJson :=
  fun s => if s = "LISTING" then some cex_listing else none

/-- A world where both listing files exist, nothing else does, and every
`driver.get` raises a navigation error. -/
def cex_env_nav_fail : Env where
  fileExists := fun p => p = "page_1.json" || p = "page_2.json"
  pathExists := fun _ => false
  isDir := fun _ => false
  readFile := fun _ => "LISTING"
  navigate := fun _ => none

/-- The same world with a working driver whose captured log is always
empty (so every status is the absent sentinel). -/
def cex_env_nav_ok : Env where
  fileExists := fun p => p = "page_1.json" || p = "page_2.json"
  pathExists := fun _ => false
  isDir := fun _ => false
  readFile := fun _ => "LISTING"
  navigate := fun _ => some []

/-- A world where the first configured listing file is missing. -/
def env_missing_first : Env where
  fileExists := fun p => p = "page_2.json"
  pathExists := fun _ => false
  isDir := fun _ => false
  readFile := fun _ => "LISTING"
  navigate := fun _ => some []

/-- A world where the file derived from the first URL already sits in the
output directory. -/
def env_have_first : Env where
  fileExists := fun p =>
    p = "page_1.json" || p = "page_2.json" || p = "PDFs/AA_PDF"
  pathExists := fun _ => false
  isDir := fun _ => false
  readFile := fun _ => "LISTING"
  navigate := fun _ => some []

/-- A world where a regular (non-directory) file occupies the output path
`PDFs`. -/
def env_clash : Env where
  fileExists := fun p => p = "page_1.json" || p = "page_2.json"
  pathExists := fun p => p = "PDFs"
  isDir := fun _ => false
  readFile := fun _ => "LISTING"
  navigate := fun _ => some []

/-- First of two runs whose second listing files differ. -/
def env_run1 : Env where
  fileExists := fun p => p = "page_1.json" || p = "page_2.json"
  pathExists := fun _ => false
  isDir := fun _ => false
  readFile := fun p => if p = "page_1.json" then "LISTING" else "OTHER1"
  navigate := fun _ => some []

/-- Second run: same first listing content, different second listing. -/
def env_run2 : Env where
  fileExists := fun p => p = "page_1.json" || p = "page_2.json"
  pathExists := fun _ => false
  isDir := fun _ => false
  readFile := fun p => if p = "page_1.json" then "LISTING" else "OTHER2"
  navigate := fun _ => some []

/-- A well-formed `Network.responseReceived` log record for URL `u` with
integer status `st`. -/
def status_log (u : String) (st : Int) : RawLog :=
  some (.obj [("message", .obj
    [("method", .str "Network.responseReceived"),
     ("params", .obj [("response", .obj
       [("url", .str u), ("status", .num st)])])])])

/-- A captured log beginning with a malformed record, then a 200 response
for `"u"`. -/
def mixed_logs : List RawLog := [none, status_log "u" 200]

/-- A browser environment whose every navigation succeeds and captures
`mixed_logs`. -/
def browser_env_mixed : Env where
  fileExists := fun _ => false
  pathExists := fun _ => false
  isDir := fun _ => false
  readFile := fun _ => ""
  navigate := fun _ => some mixed_logs

/-! ## Supporting lemmas -/

lemma qualifying_url_eq_map (b : String) (r : PyJson) :
    qualifying_url b r = (qualifying_id r).map (fun i => b ++ "/" ++ i) := by
  cases r with
  | arr xs =>
    cases xs with
    | nil => rfl
    | cons hd tl =>
      cases hd with
      | null => rfl
      | bool v => rfl
      | num n => rfl
      | str s =>
        by_cases h : str_ends_with s "_PDF" = true
        · simp [qualifying_url, qualifying_id, h]
        · simp [qualifying_url, qualifying_id, h]
      | arr ys => rfl
      | obj kvs => rfl
  | null => rfl
  | bool v => rfl
  | num n => rfl
  | str s => rfl
  | obj kvs => rfl

/-- The list comprehension, when it does not raise, returns exactly the
qualifying identifiers in row order. -/
lemma pdf_ids_of_rows_ok_eq :
    ∀ rows ids, pdf_ids_of_rows rows = .ok ids →
      ids = rows.filterMap qualifying_id := by
  intro rows
  induction rows with
  | nil =>
    intro ids h
    injection h with h'
    simp [h'.symm]
  | cons row rest ih =>
    intro ids h
    cases row with
    | arr xs =>
      cases xs with
      | nil => simp [pdf_ids_of_rows] at h
      | cons hd tl =>
        cases hd with
        | str s =>
          by_cases hs : str_ends_with s "_PDF" = true
          · rw [pdf_ids_of_rows] at h
            simp only [hs, if_true] at h
            cases hrest : pdf_ids_of_rows rest with
            | ok ids' =>
              rw [hrest] at h
              injection h with h'
              subst h'
              simp [List.filterMap_cons, qualifying_id, hs, ih ids' hrest]
            | error e => rw [hrest] at h; cases h
          · rw [pdf_ids_of_rows] at h
            simp only [hs, if_false] at h
            simp [List.filterMap_cons, qualifying_id, hs, ih ids h]
        | null => simpa [pdf_ids_of_rows, List.filterMap_cons, qualifying_id] using ih ids h
        | bool v => simpa [pdf_ids_of_rows, List.filterMap_cons, qualifying_id] using ih ids h
        | num n => simpa [pdf_ids_of_rows, List.filterMap_cons, qualifying_id] using ih ids h
        | arr ys => simpa [pdf_ids_of_rows, List.filterMap_cons, qualifying_id] using ih ids h
        | obj kvs => simpa [pdf_ids_of_rows, List.filterMap_cons, qualifying_id] using ih ids h
    | null => simpa [pdf_ids_of_rows, List.filterMap_cons, qualifying_id] using ih ids h
    | bool v => simpa [pdf_ids_of_rows, List.filterMap_cons, qualifying_id] using ih ids h
    | num n => simpa [pdf_ids_of_rows, List.filterMap_cons, qualifying_id] using ih ids h
    | str s => simpa [pdf_ids_of_rows, List.filterMap_cons, qualifying_id] using ih ids h
    | obj kvs => simpa [pdf_ids_of_rows, List.filterMap_cons, qualifying_id] using ih ids h

/-- An empty-list row always aborts the comprehension with `IndexError`. -/
lemma pdf_ids_of_rows_error_of_mem :
    ∀ rows, PyJson.arr [] ∈ rows →
      pdf_ids_of_rows rows = .error .indexError := by
  intro rows
  induction rows with
  | nil => intro h; cases h
  | cons row rest ih =>
    intro h
    rcases List.mem_cons.mp h with h1 | h2
    · subst h1; rfl
    · cases row with
      | arr xs =>
        cases xs with
        | nil => rfl
        | cons hd tl =>
          cases hd with
          | str s =>
            rw [pdf_ids_of_rows]
            by_cases hs : str_ends_with s "_PDF" = true
            · simp [hs, ih h2]
            · simp [hs, ih h2]
          | null => simpa [pdf_ids_of_rows] using ih h2
          | bool v => simpa [pdf_ids_of_rows] using ih h2
          | num n => simpa [pdf_ids_of_rows] using ih h2
          | arr ys => simpa [pdf_ids_of_rows] using ih h2
          | obj kvs => simpa [pdf_ids_of_rows] using ih h2
      | null => simpa [pdf_ids_of_rows] using ih h2
      | bool v => simpa [pdf_ids_of_rows] using ih h2
      | num n => simpa [pdf_ids_of_rows] using ih h2
      | str s => simpa [pdf_ids_of_rows] using ih h2
      | obj kvs => simpa [pdf_ids_of_rows] using ih h2

/-- A successful `extract_pdf_urls` run returns exactly the row-order
`filterMap` of the rows it iterated over. -/
lemma extract_pdf_urls_ok_eq (parsed : Option PyJson) (base_url : String)
    (urls : List String)
    (h : extract_pdf_urls parsed base_url = .ok urls) :
    urls = (rows_of parsed).filterMap (qualifying_url base_url) := by
  cases parsed with
  | none =>
    injection h with h'
    simp [rows_of, h'.symm]
  | some pj =>
    cases pj with
    | obj kvs =>
      simp only [extract_pdf_urls] at h
      cases hd : dict_get kvs "data" (.obj []) with
      | obj kvs2 =>
        simp only [hd] at h
        cases hit : py_iter (dict_get kvs2 "Data" (.arr [])) with
        | none =>
          simp only [hit] at h
          injection h with h'
          simp [rows_of, hd, hit, h'.symm]
        | some rows =>
          simp only [hit] at h
          cases hrows : pdf_ids_of_rows rows with
          | ok ids =>
            simp only [hrows] at h
            injection h with h'
            have hids := pdf_ids_of_rows_ok_eq rows ids hrows
            have hrowsof : rows_of (some (PyJson.obj kvs)) = rows := by
              simp [rows_of, hd, hit]
            rw [hrowsof, ← h', hids, List.map_filterMap]
            apply List.filterMap_congr
            intro r _
            exact (qualifying_url_eq_map base_url r).symm
          | error e => simp [hrows] at h
      | null => simp [hd] at h
      | bool v => simp [hd] at h
      | num n => simp [hd] at h
      | str s => simp [hd] at h
      | arr xs => simp [hd] at h
    | null => simp [extract_pdf_urls] at h
    | bool v => simp [extract_pdf_urls] at h
    | num n => simp [extract_pdf_urls] at h
    | str s => simp [extract_pdf_urls] at h
    | arr xs => simp [extract_pdf_urls] at h

/-- Only rows whose first element is a string ending in `_PDF` produce an
identifier. -/
lemma qualifying_id_ends_with {r : PyJson} {s : String}
    (h : qualifying_id r = some s) : str_ends_with s "_PDF" = true := by
  cases r with
  | arr xs =>
    cases xs with
    | nil => cases h
    | cons hd tl =>
      cases hd with
      | str t =>
        by_cases ht : str_ends_with t "_PDF" = true
        · simp only [qualifying_id, ht, if_true] at h
          injection h with h'
          exact h' ▸ ht
        · simp [qualifying_id, ht] at h
      | null => cases h
      | bool v => cases h
      | num n => cases h
      | arr ys => cases h
      | obj kvs => cases h
  | null => cases h
  | bool v => cases h
  | num n => cases h
  | str t => cases h
  | obj kvs => cases h

/-- `status_code == 200` is true exactly at the integer 200. -/
lemma py_eq_int_true_iff (st : Option PyJson) (n : Int) :
    py_eq_int st n = true ↔ st = some (.num n) := by
  cases st with
  | none => simp [py_eq_int]
  | some j =>
    cases j with
    | num m => simp [py_eq_int]
    | null => simp [py_eq_int]
    | bool v => simp [py_eq_int]
    | str s => simp [py_eq_int]
    | arr xs => simp [py_eq_int]
    | obj kvs => simp [py_eq_int]

/-- The log scan returns the absent sentinel exactly when no entry
yields a status. -/
lemma scan_logs_eq_none_iff (logs : List RawLog) (target : String) :
    scan_logs logs target = none ↔
      ∀ e ∈ logs, log_entry_status target e = none := by
  induction logs with
  | nil => simp [scan_logs]
  | cons e rest ih =>
    rw [scan_logs]
    cases h : log_entry_status target e with
    | some v =>
      simp only []
      constructor
      · intro hc; cases hc
      · intro hall
        exact absurd (hall e (List.mem_cons_self e rest)) (by simp [h])
    | none => simp [List.forall_mem_cons, h, ih]

/-- The log scan returns `some v` exactly when some entry yields `v` and
every earlier entry yields nothing. -/
lemma scan_logs_eq_some_iff (logs : List RawLog) (target : String)
    (v : PyJson) :
    scan_logs logs target = some v ↔
      ∃ pre entry post, logs = pre ++ entry :: post ∧
        log_entry_status target entry = some v ∧
        ∀ e ∈ pre, log_entry_status target e = none := by
  induction logs with
  | nil =>
    constructor
    · intro h; cases h
    · rintro ⟨pre, entry, post, hsplit, -, -⟩
      exact absurd hsplit (by cases pre <;> simp)
  | cons e rest ih =>
    rw [scan_logs]
    cases h : log_entry_status target e with
    | some w =>
      simp only []
      constructor
      · intro hv
        injection hv with hv'
        exact ⟨[], e, rest, rfl, hv' ▸ h, by simp⟩
      · rintro ⟨pre, entry, post, hsplit, hes, hpre⟩
        cases pre with
        | nil =>
          simp only [List.nil_append, List.cons.injEq] at hsplit
          rw [hsplit.1] at h
          rw [h] at hes
          exact hes
        | cons p ps =>
          simp only [List.cons_append, List.cons.injEq] at hsplit
          have hp := hpre p (List.mem_cons_self p ps)
          rw [← hsplit.1] at hp
          rw [hp] at h
          cases h
    | none =>
      simp only []
      constructor
      · intro hsv
        obtain ⟨pre, entry, post, hsplit, hes, hpre⟩ := ih.mp hsv
        refine ⟨e :: pre, entry, post, by simp [hsplit], hes, ?_⟩
        intro x hx
        rcases List.mem_cons.mp hx with h1 | h2
        · rw [h1]; exact h
        · exact hpre x h2
      · rintro ⟨pre, entry, post, hsplit, hes, hpre⟩
        cases pre with
        | nil =>
          simp only [List.nil_append, List.cons.injEq] at hsplit
          rw [hsplit.1] at h
          rw [h] at hes
          cases hes
        | cons p ps =>
          simp only [List.cons_append, List.cons.injEq] at hsplit
          exact ih.mpr ⟨ps, entry, post, hsplit.2, hes,
            fun x hx => hpre x (List.mem_cons_of_mem p hx)⟩

/-- Every event the per-URL loop emits is a progress line for one of its
URLs, an `about:blank` navigation, or a navigation to one of its URLs
whose file did not already exist in the output directory. -/
lemma process_urls_events (env : Env) :
    ∀ ids e, e ∈ (process_urls env ids).1 →
      (∃ u, u ∈ ids ∧ e = .printed ("Processing URL: " ++ u)) ∨
      e = .navigateEv "about:blank" ∨
      (∃ u, u ∈ ids ∧
        check_file_exists env (os_path_join output_directory
          (get_file_name_from_url u)) = false ∧ e = .navigateEv u) := by
  intro ids
  induction ids with
  | nil => intro e he; simp [process_urls] at he
  | cons u rest ih =>
    intro e he
    rw [process_urls] at he
    simp only [get_file_name_from_url] at he
    by_cases hf : check_file_exists env (os_path_join output_directory
        (os_path_basename u)) = true
    · rw [if_pos hf] at he
      rcases List.mem_cons.mp he with h1 | h2
      · exact Or.inl ⟨u, List.mem_cons_self u rest, h1⟩
      · rcases ih e h2 with ⟨w, hw, hew⟩ | hb | ⟨w, hw, hcw, hew⟩
        · exact Or.inl ⟨w, List.mem_cons_of_mem u hw, hew⟩
        · exact Or.inr (Or.inl hb)
        · exact Or.inr (Or.inr ⟨w, List.mem_cons_of_mem u hw, hcw, hew⟩)
    · rw [if_neg hf] at he
      rw [Bool.not_eq_true] at hf
      cases hnav : env.navigate "about:blank" with
      | none =>
        simp only [download_pdf_if_valid, get_http_status_code_from_browser,
          hnav] at he
        rcases List.mem_cons.mp he with h1 | h2
        · exact Or.inl ⟨u, List.mem_cons_self u rest, h1⟩
        · rcases List.mem_cons.mp h2 with h3 | h4
          · exact Or.inr (Or.inl h3)
          · cases h4
      | some blk =>
        cases hnav2 : env.navigate u with
        | none =>
          simp only [download_pdf_if_valid, get_http_status_code_from_browser,
            hnav, hnav2] at he
          rcases List.mem_cons.mp he with h1 | h2
          · exact Or.inl ⟨u, List.mem_cons_self u rest, h1⟩
          · rcases List.mem_cons.mp h2 with h3 | h4
            · exact Or.inr (Or.inl h3)
            · rcases List.mem_cons.mp h4 with h5 | h6
              · exact Or.inr (Or.inr ⟨u, List.mem_cons_self u rest, hf, h5⟩)
              · cases h6
        | some logs =>
          simp only [download_pdf_if_valid, get_http_status_code_from_browser,
            hnav, hnav2] at he
          rcases List.mem_cons.mp he with h1 | h2
          · exact Or.inl ⟨u, List.mem_cons_self u rest, h1⟩
          · rcases List.mem_cons.mp h2 with h3 | h4
            · exact Or.inr (Or.inl h3)
            · rcases List.mem_cons.mp h4 with h5 | h6
              · exact Or.inr (Or.inr ⟨u, List.mem_cons_self u rest, hf, h5⟩)
              · rcases ih e h6 with ⟨w, hw, hew⟩ | hb | ⟨w, hw, hcw, hew⟩
                · exact Or.inl ⟨w, List.mem_cons_of_mem u hw, hew⟩
                · exact Or.inr (Or.inl hb)
                · exact Or.inr (Or.inr ⟨w, List.mem_cons_of_mem u hw, hcw, hew⟩)

/-- When every navigation succeeds, the loop never aborts: it finishes
with no escaping exception and emits a progress line for every URL,
whatever the statuses were. -/
lemma process_urls_continues (env : Env)
    (hnav : ∀ u, (env.navigate u).isSome = true) :
    ∀ ids, (process_urls env ids).2 = none ∧
      ∀ u ∈ ids, Event.printed ("Processing URL: " ++ u) ∈
        (process_urls env ids).1 := by
  intro ids
  induction ids with
  | nil => exact ⟨rfl, by intro u hu; cases hu⟩
  | cons u rest ih =>
    obtain ⟨blk, hblk⟩ := Option.isSome_iff_exists.mp (hnav "about:blank")
    obtain ⟨lg, hlg⟩ := Option.isSome_iff_exists.mp (hnav u)
    rw [process_urls]
    simp only [get_file_name_from_url]
    by_cases hf : check_file_exists env (os_path_join output_directory
        (os_path_basename u)) = true
    · rw [if_pos hf]
      refine ⟨ih.1, ?_⟩
      intro w hw
      rcases List.mem_cons.mp hw with h1 | h2
      · rw [h1]; exact List.mem_cons_self _ _
      · exact List.mem_cons_of_mem _ (ih.2 w h2)
    · rw [if_neg hf]
      simp only [download_pdf_if_valid, get_http_status_code_from_browser,
        hblk, hlg]
      refine ⟨ih.1, ?_⟩
      intro w hw
      rcases List.mem_cons.mp hw with h1 | h2
      · rw [h1]; exact List.mem_cons_self _ _
      · exact List.mem_cons_of_mem _
          (List.mem_append_right _ (ih.2 w h2))

/-- The loop never releases the browser itself. -/
lemma process_urls_quit_not_mem (env : Env) (ids : List String) :
    Event.quitEv ∉ (process_urls env ids).1 := by
  intro h
  rcases process_urls_events env ids Event.quitEv h with
    ⟨w, -, hw⟩ | hb | ⟨w, -, -, hw⟩
  · cases hw
  · cases hb
  · cases hw

/-- The loop never reads a file. -/
lemma process_urls_read_not_mem (env : Env) (ids : List String)
    (p : String) : Event.readFileEv p ∉ (process_urls env ids).1 := by
  intro h
  rcases process_urls_events env ids (Event.readFileEv p) h with
    ⟨w, -, hw⟩ | hb | ⟨w, -, -, hw⟩
  · cases hw
  · cases hb
  · cases hw

/-- `setup_browser` emits the `makedirs` call, followed by the browser
launch when `makedirs` did not raise. -/
lemma setup_browser_trace (env : Env) (d : String) :
    (setup_browser env d).1 = [.makedirsEv d] ∨
    (setup_browser env d).1 = [.makedirsEv d, .launchedBrowser d] := by
  unfold setup_browser
  by_cases h : (env.pathExists d && !env.isDir d) = true
  · rw [if_pos h]; exact Or.inl rfl
  · rw [if_neg h]; exact Or.inr rfl

/-- The directory-creation step emits at most the `mkdir`. -/
lemma mem_dir_events {env : Env} {e : Event}
    (he : e ∈ (if check_directory_exists env output_directory
      then ([] : List Event) else [.mkdirEv output_directory])) :
    e = Event.mkdirEv output_directory := by
  by_cases hd : check_directory_exists env output_directory = true
  · rw [if_pos hd] at he; cases he
  · rw [if_neg hd] at he
    rcases List.mem_cons.mp he with h1 | h2
    · exact h1
    · cases h2

/-- `setup_browser` emits only the `makedirs` call and the launch. -/
lemma mem_setup_browser_events {env : Env} {e : Event}
    (he : e ∈ (setup_browser env output_directory).1) :
    e = Event.makedirsEv output_directory ∨
    e = Event.launchedBrowser output_directory := by
  rcases setup_browser_trace env output_directory with h | h <;> rw [h] at he
  · rcases List.mem_cons.mp he with h1 | h2
    · exact Or.inl h1
    · cases h2
  · rcases List.mem_cons.mp he with h1 | h2
    · exact Or.inl h1
    · rcases List.mem_cons.mp h2 with h3 | h4
      · exact Or.inr h3
      · cases h4

/-- Every event `main` emits is the missing-file error line, one of the
directory/browser/read bookkeeping events, the final quit, or an event of
the per-URL loop run on the extracted URLs. -/
lemma main_trace_events (parse : String → Option PyJson) (env : Env) :
    ∀ e, e ∈ (main parse env).1 →
      (∃ p, e = .printed ("Error: " ++ p ++ " not found.") ∧
        first_missing env valid_urls_path = some p) ∨
      e = .mkdirEv output_directory ∨
      e = .makedirsEv output_directory ∨
      e = .launchedBrowser output_directory ∨
      e = .readFileEv "page_1.json" ∨
      e = .quitEv ∨
      (∃ ids, main_pdf_urls parse env = .ok ids ∧
        e ∈ (process_urls env ids).1) := by
  intro e he
  cases hfm : first_missing env valid_urls_path with
  | some p =>
    simp only [main, hfm] at he
    rcases List.mem_cons.mp he with h1 | h2
    · exact Or.inl ⟨p, h1, rfl⟩
    · cases h2
  | none =>
    simp only [main, hfm] at he
    cases hsb2 : (setup_browser env output_directory).2 with
    | some err =>
      simp only [hsb2] at he
      rcases List.mem_append.mp he with h1 | h2
      · exact Or.inr (Or.inl (mem_dir_events h1))
      · rcases mem_setup_browser_events h2 with h3 | h3
        · exact Or.inr (Or.inr (Or.inl h3))
        · exact Or.inr (Or.inr (Or.inr (Or.inl h3)))
    | none =>
      simp only [hsb2] at he
      cases hx : main_pdf_urls parse env with
      | error err =>
        simp only [hx] at he
        rcases List.mem_append.mp he with h12 | h3
        · rcases List.mem_append.mp h12 with h1 | h2
          · exact Or.inr (Or.inl (mem_dir_events h1))
          · rcases mem_setup_browser_events h2 with h4 | h4
            · exact Or.inr (Or.inr (Or.inl h4))
            · exact Or.inr (Or.inr (Or.inr (Or.inl h4)))
        · rcases List.mem_cons.mp h3 with h4 | h5
          · exact Or.inr (Or.inr (Or.inr (Or.inr (Or.inl h4))))
          · cases h5
      | ok ids =>
        simp only [hx] at he
        cases hl : (process_urls env ids).2 with
        | some err =>
          simp only [hl] at he
          rcases List.mem_append.mp he with h123 | h4
          · rcases List.mem_append.mp h123 with h12 | h3
            · rcases List.mem_append.mp h12 with h1 | h2
              · exact Or.inr (Or.inl (mem_dir_events h1))
              · rcases mem_setup_browser_events h2 with h5 | h5
                · exact Or.inr (Or.inr (Or.inl h5))
                · exact Or.inr (Or.inr (Or.inr (Or.inl h5)))
            · rcases List.mem_cons.mp h3 with h5 | h6
              · exact Or.inr (Or.inr (Or.inr (Or.inr (Or.inl h5))))
              · cases h6
          · exact Or.inr (Or.inr (Or.inr (Or.inr (Or.inr (Or.inr
              ⟨ids, rfl, h4⟩)))))
        | none =>
          simp only [hl] at he
          rcases List.mem_append.mp he with h1234 | h5
          · rcases List.mem_append.mp h1234 with h123 | h4
            · rcases List.mem_append.mp h123 with h12 | h3
              · rcases List.mem_append.mp h12 with h1 | h2
                · exact Or.inr (Or.inl (mem_dir_events h1))
                · rcases mem_setup_browser_events h2 with h6 | h6
                  · exact Or.inr (Or.inr (Or.inl h6))
                  · exact Or.inr (Or.inr (Or.inr (Or.inl h6)))
              · rcases List.mem_cons.mp h3 with h6 | h7
                · exact Or.inr (Or.inr (Or.inr (Or.inr (Or.inl h6))))
                · cases h7
            · exact Or.inr (Or.inr (Or.inr (Or.inr (Or.inr (Or.inr
                ⟨ids, rfl, h4⟩)))))
          · rcases List.mem_cons.mp h5 with h6 | h7
            · exact Or.inr (Or.inr (Or.inr (Or.inr (Or.inr (Or.inl h6)))))
            · cases h7

/-- A progress line is never a missing-file error line (the first
characters differ). -/
lemma processing_ne_error_line (u p : String) :
    "Processing URL: " ++ u ≠ "Error: " ++ p ++ " not found." := by
  intro h
  have hd : ("Processing URL: " ++ u).data.head? =
      ("Error: " ++ p ++ " not found.").data.head? := by rw [h]
  have h1 : ("Processing URL: " ++ u).data.head? = some 'P' := rfl
  have h2 : ("Error: " ++ p ++ " not found.").data.head? = some 'E' := rfl
  rw [h1, h2] at hd
  exact absurd hd (by decide)

/-- Every member of a successful extraction is the base URL, a slash, and
an identifier. -/
lemma extract_mem_form (parsed : Option PyJson) (base : String)
    (ids : List String) (u : String)
    (h : extract_pdf_urls parsed base = .ok ids) (hu : u ∈ ids) :
    ∃ id, u = base ++ "/" ++ id := by
  have heq := extract_pdf_urls_ok_eq parsed base ids h
  rw [heq] at hu
  rcases List.mem_filterMap.mp hu with ⟨r, -, hq⟩
  rw [qualifying_url_eq_map] at hq
  rcases Option.map_eq_some'.mp hq with ⟨id, -, hu'⟩
  exact ⟨id, hu'.symm⟩

/-- An extracted URL starts with `https`, so it is never the blank
page. -/
lemma url_ne_blank {u id : String}
    (hid : u = base_url_const ++ "/" ++ id) : u ≠ "about:blank" := by
  intro hc
  have h1 : u.data.head? = some 'h' := by rw [hid]; rfl
  rw [hc] at h1
  exact absurd h1 (by decide)

/-! ## Claims -/

/-- C1: for every JSON input and base URL, every URL returned by
`extract_pdf_urls` has the form `{baseUrl}/{identifier}` where the
identifier is the first element of a row and ends with `_PDF`; rows that
are not lists or whose first element is not such a string contribute
nothing, and the output is the row-order `filterMap` of the input rows —
no reordering, no deduplication. -/
theorem extract_pdf_urls_shape_and_order (parsed : Option PyJson)
    (base_url : String) (urls : List String)
    (h : extract_pdf_urls parsed base_url = .ok urls) :
    urls = (rows_of parsed).filterMap (qualifying_url base_url) ∧
    ∀ u ∈ urls, ∃ id, str_ends_with id "_PDF" = true ∧
      u = base_url ++ "/" ++ id := by
  have hmain := extract_pdf_urls_ok_eq parsed base_url urls h
  refine ⟨hmain, ?_⟩
  intro u hu
  rw [hmain] at hu
  rcases List.mem_filterMap.mp hu with ⟨r, _, hq⟩
  rw [qualifying_url_eq_map] at hq
  rcases Option.map_eq_some'.mp hq with ⟨id, hid, hu'⟩
  exact ⟨id, qualifying_id_ends_with hid, hu'.symm⟩

/-- C1 witness: the theorem applied to a concrete listing with
qualifying and non-qualifying rows. -/
theorem extract_pdf_urls_shape_and_order_witness :
    ["http://x/a_PDF", "http://x/d_PDF"] =
      (rows_of (some listing_example)).filterMap (qualifying_url "http://x") ∧
    ∀ u ∈ ["http://x/a_PDF", "http://x/d_PDF"], ∃ id,
      str_ends_with id "_PDF" = true ∧ u = "http://x" ++ "/" ++ id :=
  extract_pdf_urls_shape_and_order (some listing_example) "http://x"
    ["http://x/a_PDF", "http://x/d_PDF"] rfl

/-- C2 counterexample: a top-level JSON value that is not an object makes
`extract_pdf_urls` raise `AttributeError` (`list.get` does not exist) —
the exception is not in the `except` clause, so it reaches the caller
instead of the claimed logged-diagnostic-and-empty-sequence outcome. -/
theorem extract_pdf_urls_raises_on_non_object :
    extract_pdf_urls (some (PyJson.arr [PyJson.num 1])) "http://x" =
      .error .attributeError ∧
    extract_pdf_urls (some (PyJson.arr [PyJson.num 1])) "http://x" ≠
      .ok [] :=
  ⟨rfl, fun hc => Except.noConfusion hc⟩

/-- C2 amended: malformed JSON text and the shapes whose exceptions fall
in the `except (json.JSONDecodeError, KeyError, TypeError)` clause (a
missing key path, a non-iterable `Data`) yield an empty list without
raising; but a non-object top-level value, a non-object `data` value, or
an empty-list row raises (`AttributeError` / `AttributeError` /
`IndexError`) to the caller. -/
theorem extract_pdf_urls_error_policy_amended :
    (∀ b, extract_pdf_urls none b = .ok []) ∧
    (∀ b (j : PyJson), (∀ kvs, j ≠ .obj kvs) →
      extract_pdf_urls (some j) b = .error .attributeError) ∧
    (∀ b kvs, (∀ kvs2, dict_get kvs "data" (.obj []) ≠ .obj kvs2) →
      extract_pdf_urls (some (.obj kvs)) b = .error .attributeError) ∧
    (∀ b kvs kvs2, dict_get kvs "data" (.obj []) = .obj kvs2 →
      py_iter (dict_get kvs2 "Data" (.arr [])) = none →
      extract_pdf_urls (some (.obj kvs)) b = .ok []) ∧
    (∀ b kvs kvs2 rows, dict_get kvs "data" (.obj []) = .obj kvs2 →
      py_iter (dict_get kvs2 "Data" (.arr [])) = some rows →
      PyJson.arr [] ∈ rows →
      extract_pdf_urls (some (.obj kvs)) b = .error .indexError) := by
  refine ⟨fun b => rfl, ?_, ?_, ?_, ?_⟩
  · intro b j hj
    cases j with
    | obj kvs => exact absurd rfl (hj kvs)
    | null => rfl
    | bool v => rfl
    | num n => rfl
    | str s => rfl
    | arr xs => rfl
  · intro b kvs hd
    simp only [extract_pdf_urls]
  · intro b kvs kvs2 hd hit
    simp only [extract_pdf_urls, hd, hit]
  · intro b kvs kvs2 rows hd hit hmem
    simp only [extract_pdf_urls, hd, hit,
      pdf_ids_of_rows_error_of_mem rows hmem]

/-- C3 counterexample: a run that passes input validation but hits a
navigation error on the first URL exits `main` with the exception and the
trace contains no `driver.quit()` — the claimed every-exit-path cleanup
fails. -/
theorem main_quit_skipped_on_navigation_error :
    first_missing cex_env_nav_fail valid_urls_path = none ∧
    (main cex_parse cex_env_nav_fail).2 = some .navigationError ∧
    Event.quitEv ∉ (main cex_parse cex_env_nav_fail).1 :=
  ⟨rfl, rfl, by decide⟩

/-- C3 amended: on every exit path of `main` that passes input validation
and on which no exception escapes, `driver.quit()` is invoked exactly
once; on a path where an exception escapes (directory clash, extraction
error, navigation error) it is never invoked. -/
theorem main_quit_iff_no_exception (parse : String → Option PyJson)
    (env : Env) (hpass : first_missing env valid_urls_path = none) :
    ((main parse env).2 = none →
      (main parse env).1.count Event.quitEv = 1) ∧
    ((main parse env).2 ≠ none →
      (main parse env).1.count Event.quitEv = 0) := by
  have hdirq : Event.quitEv ∉
      (if check_directory_exists env output_directory then ([] : List Event)
       else [.mkdirEv output_directory]) := by
    split <;> simp
  have hsbq : Event.quitEv ∉ (setup_browser env output_directory).1 := by
    rcases setup_browser_trace env output_directory with h | h <;>
      rw [h] <;> simp
  simp only [main, hpass]
  cases hsb : (setup_browser env output_directory).2 with
  | some e =>
    simp only [hsb]
    constructor
    · intro hc; cases hc
    · intro _
      simp [List.count_append, List.count_eq_zero_of_not_mem hdirq,
        List.count_eq_zero_of_not_mem hsbq]
  | none =>
    simp only [hsb]
    cases hx : main_pdf_urls parse env with
    | error e =>
      simp only [hx]
      constructor
      · intro hc; cases hc
      · intro _
        simp [List.count_append, List.count_eq_zero_of_not_mem hdirq,
          List.count_eq_zero_of_not_mem hsbq]
    | ok ids =>
      simp only [hx]
      cases hl : (process_urls env ids).2 with
      | some e =>
        simp only [hl]
        constructor
        · intro hc; cases hc
        · intro _
          simp [List.count_append, List.count_eq_zero_of_not_mem hdirq,
            List.count_eq_zero_of_not_mem hsbq,
            List.count_eq_zero_of_not_mem
              (process_urls_quit_not_mem env ids)]
      | none =>
        simp only [hl]
        constructor
        · intro _
          simp [List.count_append, List.count_eq_zero_of_not_mem hdirq,
            List.count_eq_zero_of_not_mem hsbq,
            List.count_eq_zero_of_not_mem
              (process_urls_quit_not_mem env ids)]
        · intro hc; exact absurd rfl hc

/-- C3 amended witness: the amended theorem applied to a concrete world
in which the whole run succeeds. -/
theorem main_quit_iff_no_exception_witness :
    ((main cex_parse cex_env_nav_ok).2 = none →
      (main cex_parse cex_env_nav_ok).1.count Event.quitEv = 1) ∧
    ((main cex_parse cex_env_nav_ok).2 ≠ none →
      (main cex_parse cex_env_nav_ok).1.count Event.quitEv = 0) :=
  main_quit_iff_no_exception cex_parse cex_env_nav_ok rfl

/-- C4 counterexample: with two extracted URLs and a navigation error on
the first, the run aborts — the second URL is never processed, refuting
the claim that a navigation error skips only the failing URL. -/
theorem main_loop_aborts_on_navigation_error :
    main_pdf_urls cex_parse cex_env_nav_fail =
      .ok [base_url_const ++ "/AA_PDF", base_url_const ++ "/BB_PDF"] ∧
    (main cex_parse cex_env_nav_fail).2 = some .navigationError ∧
    Event.printed ("Processing URL: " ++ (base_url_const ++ "/BB_PDF")) ∉
      (main cex_parse cex_env_nav_fail).1 :=
  ⟨rfl, rfl, by decide⟩

/-- C4 amended: a non-200 or absent status makes only that URL be
skipped and the loop proceed to the next URL (whenever every navigation
succeeds the loop finishes and prints a progress line for every URL,
whatever the statuses); but a navigation error raised while driving the
browser propagates out of the loop, aborting the remaining URLs. -/
theorem per_url_failure_policy :
    (∀ env, (∀ u, (env.navigate u).isSome = true) → ∀ ids,
      (process_urls env ids).2 = none ∧
      ∀ u ∈ ids, Event.printed ("Processing URL: " ++ u) ∈
        (process_urls env ids).1) ∧
    (∀ env u rest,
      check_file_exists env (os_path_join output_directory
        (get_file_name_from_url u)) = false →
      env.navigate "about:blank" = none →
      process_urls env (u :: rest) =
        ([.printed ("Processing URL: " ++ u), .navigateEv "about:blank"],
          some .navigationError)) := by
  constructor
  · exact fun env h ids => process_urls_continues env h ids
  · intro env u rest hf hb
    rw [process_urls]
    simp only [get_file_name_from_url] at hf ⊢
    rw [if_neg (by simp [hf])]
    simp only [download_pdf_if_valid, get_http_status_code_from_browser, hb]

/-- C4 amended witness: the amended theorem applied to a concrete world
with absent statuses (loop continues) and to one with a navigation error
(loop aborts). -/
theorem per_url_failure_policy_witness :
    ((process_urls cex_env_nav_ok [base_url_const ++ "/AA_PDF"]).2 = none ∧
      ∀ u ∈ [base_url_const ++ "/AA_PDF"],
        Event.printed ("Processing URL: " ++ u) ∈
          (process_urls cex_env_nav_ok [base_url_const ++ "/AA_PDF"]).1) ∧
    process_urls cex_env_nav_fail [base_url_const ++ "/AA_PDF"] =
      ([.printed ("Processing URL: " ++ (base_url_const ++ "/AA_PDF")),
        .navigateEv "about:blank"], some .navigationError) :=
  ⟨per_url_failure_policy.1 cex_env_nav_ok (fun _ => rfl)
      [base_url_const ++ "/AA_PDF"],
   per_url_failure_policy.2 cex_env_nav_fail (base_url_const ++ "/AA_PDF")
      [] rfl rfl⟩

/-- C5: if a configured listing file is missing, `main` prints exactly
one error line naming the first missing path and terminates before
creating the output directory or any browser session (the whole trace is
that one line); if both exist, no such error line is ever printed. -/
theorem main_missing_input_short_circuit (parse : String → Option PyJson)
    (env : Env) :
    (env.fileExists "page_1.json" = false →
      main parse env = ([.printed "Error: page_1.json not found."], none)) ∧
    (env.fileExists "page_1.json" = true →
      env.fileExists "page_2.json" = false →
      main parse env = ([.printed "Error: page_2.json not found."], none)) ∧
    (env.fileExists "page_1.json" = true →
      env.fileExists "page_2.json" = true →
      ∀ p, Event.printed ("Error: " ++ p ++ " not found.") ∉
        (main parse env).1) := by
  refine ⟨?_, ?_, ?_⟩
  · intro h1
    have hfm : first_missing env valid_urls_path = some "page_1.json" := by
      simp [first_missing, check_file_exists, valid_urls_path, h1]
    simp only [main, hfm]
    rfl
  · intro h1 h2
    have hfm : first_missing env valid_urls_path = some "page_2.json" := by
      simp [first_missing, check_file_exists, valid_urls_path, h1, h2]
    simp only [main, hfm]
    rfl
  · intro h1 h2 p hmem
    have hfm : first_missing env valid_urls_path = none := by
      simp [first_missing, check_file_exists, valid_urls_path, h1, h2]
    rcases main_trace_events parse env _ hmem with
      ⟨q, -, hq⟩ | h | h | h | h | h | ⟨ids, -, hin⟩
    · rw [hfm] at hq; cases hq
    · cases h
    · cases h
    · cases h
    · cases h
    · cases h
    · rcases process_urls_events env ids _ hin with
        ⟨w, -, hw⟩ | hb | ⟨w, -, -, hw⟩
      · injection hw with hw'
        exact processing_ne_error_line w p hw'.symm
      · cases hb
      · cases hw

/-- C5 witness: the theorem applied to a world missing `page_1.json` and
to one where both listings exist. -/
theorem main_missing_input_short_circuit_witness :
    main cex_parse env_missing_first =
      ([.printed "Error: page_1.json not found."], none) ∧
    (∀ p, Event.printed ("Error: " ++ p ++ " not found.") ∉
      (main cex_parse cex_env_nav_ok).1) :=
  ⟨(main_missing_input_short_circuit cex_parse env_missing_first).1 rfl,
   (main_missing_input_short_circuit cex_parse cex_env_nav_ok).2.2 rfl rfl⟩

/-- C6: an extracted URL whose derived filename (text after the last `/`)
already exists in the output directory is skipped without any navigation
attempt — neither inside the loop nor anywhere in the whole run — so the
browser never re-downloads or overwrites it; a second run in which every
filename produced by the first exists therefore attempts no download for
any of them. -/
theorem existing_file_skips_navigation (parse : String → Option PyJson)
    (env : Env) (ids : List String) (u : String)
    (hids : main_pdf_urls parse env = .ok ids) (hu : u ∈ ids)
    (hfile : check_file_exists env (os_path_join output_directory
      (get_file_name_from_url u)) = true) :
    Event.navigateEv u ∉ (process_urls env ids).1 ∧
    Event.navigateEv u ∉ (main parse env).1 := by
  obtain ⟨id, hid⟩ := extract_mem_form _ _ ids u hids hu
  have hblank := url_ne_blank hid
  have hp : Event.navigateEv u ∉ (process_urls env ids).1 := by
    intro hmem
    rcases process_urls_events env ids _ hmem with
      ⟨w, -, hw⟩ | hb | ⟨w, -, hcw, hw⟩
    · cases hw
    · injection hb with hb'
      exact hblank hb'
    · injection hw with hw'
      rw [← hw'] at hcw
      rw [hcw] at hfile
      cases hfile
  refine ⟨hp, ?_⟩
  intro hmem
  rcases main_trace_events parse env _ hmem with
    ⟨q, hq, -⟩ | h | h | h | h | h | ⟨ids2, hids2, hin⟩
  · cases hq
  · cases h
  · cases h
  · cases h
  · cases h
  · cases h
  · rw [hids] at hids2
    injection hids2 with h'
    rw [← h'] at hin
    exact hp hin

/-- C6 witness: the theorem applied to a world where the first URL's file
already sits in the output directory. -/
theorem existing_file_skips_navigation_witness :
    Event.navigateEv (base_url_const ++ "/AA_PDF") ∉
      (process_urls env_have_first
        [base_url_const ++ "/AA_PDF", base_url_const ++ "/BB_PDF"]).1 ∧
    Event.navigateEv (base_url_const ++ "/AA_PDF") ∉
      (main cex_parse env_have_first).1 :=
  existing_file_skips_navigation cex_parse env_have_first
    [base_url_const ++ "/AA_PDF", base_url_const ++ "/BB_PDF"]
    (base_url_const ++ "/AA_PDF") rfl (List.mem_cons_self _ _) rfl

/-- C9: for two runs in which both listing files exist and the first
listing file has identical content, the extracted PDF URL sequence is
identical whatever the second file holds, and `page_2.json` is never
read. -/
theorem extraction_reads_only_first_listing
    (parse : String → Option PyJson) (e1 e2 : Env)
    (_h11 : e1.fileExists "page_1.json" = true)
    (_h12 : e1.fileExists "page_2.json" = true)
    (_h21 : e2.fileExists "page_1.json" = true)
    (_h22 : e2.fileExists "page_2.json" = true)
    (hsame : e1.readFile "page_1.json" = e2.readFile "page_1.json") :
    main_pdf_urls parse e1 = main_pdf_urls parse e2 ∧
    Event.readFileEv "page_2.json" ∉ (main parse e1).1 ∧
    Event.readFileEv "page_2.json" ∉ (main parse e2).1 := by
  have hnotread : ∀ env : Env,
      Event.readFileEv "page_2.json" ∉ (main parse env).1 := by
    intro env hmem
    rcases main_trace_events parse env _ hmem with
      ⟨q, hq, -⟩ | h | h | h | h | h | ⟨ids, -, hin⟩
    · cases hq
    · cases h
    · cases h
    · cases h
    · injection h with h'
      exact absurd h' (by decide)
    · cases h
    · exact process_urls_read_not_mem env ids _ hin
  refine ⟨?_, hnotread e1, hnotread e2⟩
  unfold main_pdf_urls
  rw [show valid_urls_path.headD "" = "page_1.json" from rfl, join_empty,
    join_empty, hsame]

/-- C9 witness: the theorem applied to two concrete worlds that differ
only in the second listing's content. -/
theorem extraction_reads_only_first_listing_witness :
    main_pdf_urls cex_parse env_run1 = main_pdf_urls cex_parse env_run2 ∧
    Event.readFileEv "page_2.json" ∉ (main cex_parse env_run1).1 ∧
    Event.readFileEv "page_2.json" ∉ (main cex_parse env_run2).1 :=
  extraction_reads_only_first_listing cex_parse env_run1 env_run2
    rfl rfl rfl rfl rfl

/-- C10: `check_directory_exists` is `os.path.exists`, true for any
existing path including a regular file; so when a regular file occupies
the `PDFs` output path, `main` skips `create_directory_at_path` and
proceeds into `setup_browser`, whose `os.makedirs(..., exist_ok=True)`
raises `FileExistsError` (the existing path is not a directory) before
any browser is launched. -/
theorem output_path_clash_raises (parse : String → Option PyJson)
    (env : Env) (hpass : first_missing env valid_urls_path = none)
    (hex : env.pathExists output_directory = true)
    (hnd : env.isDir output_directory = false) :
    check_directory_exists env output_directory = true ∧
    Event.mkdirEv output_directory ∉ (main parse env).1 ∧
    Event.makedirsEv output_directory ∈ (main parse env).1 ∧
    Event.launchedBrowser output_directory ∉ (main parse env).1 ∧
    (main parse env).2 = some .fileExistsError := by
  have hcheck : check_directory_exists env output_directory = true := hex
  have hsb : setup_browser env output_directory =
      ([.makedirsEv output_directory], some .fileExistsError) := by
    unfold setup_browser
    rw [if_pos (by rw [hex, hnd]; rfl)]
  have hmain : main parse env =
      ([.makedirsEv output_directory], some .fileExistsError) := by
    simp [main, hpass, hsb, hcheck]
  rw [hmain]
  exact ⟨hcheck, by decide, List.mem_cons_self _ _, by decide, rfl⟩

/-- C10 witness: the theorem applied to a world where a regular file
occupies the `PDFs` path. -/
theorem output_path_clash_raises_witness :
    check_directory_exists env_clash output_directory = true ∧
    Event.mkdirEv output_directory ∉ (main cex_parse env_clash).1 ∧
    Event.makedirsEv output_directory ∈ (main cex_parse env_clash).1 ∧
    Event.launchedBrowser output_directory ∉ (main cex_parse env_clash).1 ∧
    (main cex_parse env_clash).2 = some .fileExistsError :=
  output_path_clash_raises cex_parse env_clash rfl rfl rfl

/-- C7: `download_pdf_if_valid` returns true iff the status obtained from
`get_http_status_code_from_browser` equals 200; every other outcome (404,
403, any other status, a non-numeric status value, or the absent sentinel
`None`) yields false. -/
theorem download_pdf_if_valid_iff_200 (env : Env) (pdf_url : String)
    (evs : List Event) (st : Option PyJson)
    (h : get_http_status_code_from_browser env pdf_url = (evs, .ok st)) :
    (download_pdf_if_valid env pdf_url = (evs, .ok true) ↔
      st = some (PyJson.num 200)) ∧
    (download_pdf_if_valid env pdf_url = (evs, .ok false) ↔
      st ≠ some (PyJson.num 200)) := by
  have hd : download_pdf_if_valid env pdf_url =
      (evs, .ok (py_eq_int st 200)) := by
    unfold download_pdf_if_valid
    rw [h]
  rw [hd]
  constructor
  · rw [Prod.mk.injEq]
    simp [py_eq_int_true_iff]
  · rw [Prod.mk.injEq]
    simp only [Except.ok.injEq, true_and, ne_eq,
      ← py_eq_int_true_iff st 200, Bool.not_eq_true]

/-- C7 witness: the theorem applied to a concrete environment whose log
yields status 200. -/
theorem download_pdf_if_valid_iff_200_witness :
    (download_pdf_if_valid browser_env_mixed "u" =
        ([.navigateEv "about:blank", .navigateEv "u"], .ok true) ↔
      some (PyJson.num 200) = some (PyJson.num 200)) ∧
    (download_pdf_if_valid browser_env_mixed "u" =
        ([.navigateEv "about:blank", .navigateEv "u"], .ok false) ↔
      some (PyJson.num 200) ≠ some (PyJson.num 200)) :=
  download_pdf_if_valid_iff_200 browser_env_mixed "u"
    [.navigateEv "about:blank", .navigateEv "u"]
    (some (PyJson.num 200)) rfl

/-- C8: after two successful navigations, the status function returns the
result of scanning the captured log; the scan yields the status of the
first entry that is a well-formed `Network.responseReceived` record whose
response URL equals the target (and carries a status field), returns the
absent sentinel `none` when no such entry exists, and any entry that is
malformed or missing fields is ignored while the scan continues. -/
theorem get_http_status_code_first_match (env : Env) (target : String)
    (blk logs : List RawLog)
    (hb : env.navigate "about:blank" = some blk)
    (ht : env.navigate target = some logs) :
    get_http_status_code_from_browser env target =
      ([.navigateEv "about:blank", .navigateEv target],
        .ok (scan_logs logs target)) ∧
    (scan_logs logs target = none ↔
      ∀ e ∈ logs, log_entry_status target e = none) ∧
    (∀ v, scan_logs logs target = some v ↔
      ∃ pre entry post, logs = pre ++ entry :: post ∧
        log_entry_status target entry = some v ∧
        ∀ e ∈ pre, log_entry_status target e = none) ∧
    (∀ entry rest, log_entry_status target entry = none →
      scan_logs (entry :: rest) target = scan_logs rest target) := by
  refine ⟨?_, scan_logs_eq_none_iff logs target,
    fun v => scan_logs_eq_some_iff logs target v, ?_⟩
  · unfold get_http_status_code_from_browser
    rw [hb, ht]
  · intro entry rest hnone
    rw [scan_logs, hnone]

/-- C8 witness: the theorem applied to a concrete environment whose log
starts with a malformed record followed by a matching 200 response. -/
theorem get_http_status_code_first_match_witness :
    get_http_status_code_from_browser browser_env_mixed "u" =
      ([.navigateEv "about:blank", .navigateEv "u"],
        .ok (scan_logs mixed_logs "u")) ∧
    (scan_logs mixed_logs "u" = none ↔
      ∀ e ∈ mixed_logs, log_entry_status "u" e = none) ∧
    (∀ v, scan_logs mixed_logs "u" = some v ↔
      ∃ pre entry post, mixed_logs = pre ++ entry :: post ∧
        log_entry_status "u" entry = some v ∧
        ∀ e ∈ pre, log_entry_status "u" e = none) ∧
    (∀ entry rest, log_entry_status "u" entry = none →
      scan_logs (entry :: rest) "u" = scan_logs rest "u") :=
  get_http_status_code_first_match browser_env_mixed "u"
    mixed_logs mixed_logs rfl rfl

/-- C2 amended witness: the amended theorem applied at concrete inputs
for a non-object `data`, an empty-list row, and a JSON decode failure. -/
theorem extract_pdf_urls_error_policy_amended_witness :
    extract_pdf_urls (some (PyJson.obj [("data", PyJson.num 5)])) "x" =
      .error .attributeError ∧
    extract_pdf_urls (some (PyJson.obj [("data", PyJson.obj
      [("Data", PyJson.arr [PyJson.arr []])])])) "x" =
      .error .indexError ∧
    extract_pdf_urls none "x" = .ok [] :=
  ⟨extract_pdf_urls_error_policy_amended.2.2.1 "x" [("data", .num 5)]
      (by intro kvs2 hc; simp [dict_get] at hc),
   extract_pdf_urls_error_policy_amended.2.2.2.2 "x"
      [("data", .obj [("Data", .arr [.arr []])])]
      [("Data", .arr [.arr []])] [.arr []] rfl rfl (by simp),
   extract_pdf_urls_error_policy_amended.1 "x"⟩

end PoolPdf
